import Mathlib

/-!
Verification of the GPU magnetic-pendulum simulation engine (src/sim.rs).

This file gives a shallow embedding of the engine: the seeding function
create_particles, the Params and Particle data model, and a state machine for
the GPU resource lifecycle (new / restart / prepare / paint), where every
created GPU resource carries an allocation identity so that "recreated" versus
"reused" is observable.  f32 arithmetic is idealized as real arithmetic; u32
indices are modelled as naturals (no index in these claims approaches 2^32).
-/

namespace MagPen

open Classical

noncomputable section

/-- 2D vector over the reals, modelling glam::Vec2 (f32 idealized as real). -/
structure Vec2 where
  x : ℝ
  y : ℝ

/-- Vec2 equality is componentwise. -/
theorem Vec2.ext_iff2 (v w : Vec2) : v = w ↔ v.x = w.x ∧ v.y = w.y := by
  cases v; cases w; simp

/-- glam Vec2::ZERO. -/
def Vec2.ZERO : Vec2 := ⟨0, 0⟩

/-- glam Vec2::splat. -/
def Vec2.splat (s : ℝ) : Vec2 := ⟨s, s⟩

/-- Componentwise subtraction, glam impl Sub for Vec2. -/
def Vec2.sub (v w : Vec2) : Vec2 := ⟨v.x - w.x, v.y - w.y⟩

/-- Scalar multiplication; both f32 * Vec2 and Vec2 * f32 in glam are
componentwise, so a single operation models both. -/
def Vec2.smul (s : ℝ) (v : Vec2) : Vec2 := ⟨s * v.x, s * v.y⟩

/-- glam Vec2::length: sqrt of the sum of squares. -/
def Vec2.length (v : Vec2) : ℝ := Real.sqrt (v.x ^ 2 + v.y ^ 2)

/-- glam Vec2::normalize: divide by the length. -/
def Vec2.normalize (v : Vec2) : Vec2 := ⟨v.x / v.length, v.y / v.length⟩

/-- glam Vec2::from_angle: (cos a, sin a). -/
def Vec2.from_angle (a : ℝ) : Vec2 := ⟨Real.cos a, Real.sin a⟩

/-- glam Vec2::rotate: complex-style multiplication; self.rotate(rhs) returns
(self.x*rhs.x - self.y*rhs.y, self.y*rhs.x + self.x*rhs.y). -/
def Vec2.rotate (v w : Vec2) : Vec2 := ⟨v.x * w.x - v.y * w.y, v.y * w.x + v.x * w.y⟩

/-- Particle from src/sim.rs: position u and velocity du. -/
structure Particle where
  u : Vec2
  du : Vec2

/-- Params from src/sim.rs, the ParameterSet.  Field order and names follow the
source; u32 fields are naturals, f32 fields are reals. -/
structure Params where
  n : ℕ
  r : ℝ
  d : ℝ
  mu : ℝ
  c : ℝ
  dt : ℝ
  w : ℕ
  h : ℕ
  velocity_magnitude : ℝ
  velocity_angle : ℝ
  velocity_pattern : ℕ
  _padding : ℝ

/-- Position of the particle at linear index i, from the closure body in
GPUSim::create_particles: (vec2((i % w)/w, (i / w)/h) - splat 0.5) * scale. -/
def seedPos (width height : ℕ) (scale : ℝ) (i : ℕ) : Vec2 :=
  Vec2.smul scale
    (Vec2.sub ⟨(i % width : ℕ) / (width : ℝ), (i / width : ℕ) / (height : ℝ)⟩
      (Vec2.splat 0.5))

/-- Initial velocity for a particle at position u, from the match on
params.velocity_pattern in GPUSim::create_particles (the integer match is
rendered as the equivalent if chain: arms 0, 1, 2, then the default arm). -/
def seedVel (params : Params) (u : Vec2) : Vec2 :=
  if params.velocity_pattern = 0 then
    if u.length > 0.001 then
      Vec2.smul params.velocity_magnitude
        ((u.normalize).rotate (Vec2.from_angle params.velocity_angle))
    else
      Vec2.smul params.velocity_magnitude (Vec2.from_angle params.velocity_angle)
  else if params.velocity_pattern = 1 then
    if u.length > 0.001 then
      Vec2.smul params.velocity_magnitude
        (((Vec2.mk (-u.y) u.x).normalize).rotate (Vec2.from_angle params.velocity_angle))
    else
      Vec2.smul params.velocity_magnitude
        (Vec2.from_angle (params.velocity_angle + Real.pi / 2))
  else if params.velocity_pattern = 2 then
    Vec2.smul params.velocity_magnitude (Vec2.from_angle params.velocity_angle)
  else Vec2.ZERO

/-- The particle built for linear index i in GPUSim::create_particles. -/
def seedParticle (width height : ℕ) (scale : ℝ) (params : Params) (i : ℕ) : Particle :=
  let u := seedPos width height scale i
  { u := u, du := seedVel params u }

/-- GPUSim::create_particles: map the seeding closure over 0..width*height. -/
def create_particles (width height : ℕ) (scale : ℝ) (params : Params) : List Particle :=
  (List.range (width * height)).map (seedParticle width height scale params)

theorem create_particles_length (width height : ℕ) (scale : ℝ) (params : Params) :
    (create_particles width height scale params).length = width * height := by
  simp [create_particles]

theorem create_particles_get (width height : ℕ) (scale : ℝ) (params : Params)
    (i : ℕ) (hi : i < (create_particles width height scale params).length) :
    (create_particles width height scale params).get ⟨i, hi⟩ =
      seedParticle width height scale params i := by
  simp [create_particles]

/-- The parameter literal built inline in GPUSim::new: the engine's built-in
default ParameterSet. -/
def defaultParams (width height : ℕ) : Params :=
  { n := 5, r := 3.0, d := 0.4, mu := 0.2, c := 0.2, dt := 0.006,
    w := width, h := height,
    velocity_magnitude := 4.0, velocity_angle := Real.pi / 2,
    velocity_pattern := 1, _padding := 0.0 }

theorem seedVel_congr (p q : Params) (u : Vec2)
    (hm : p.velocity_magnitude = q.velocity_magnitude)
    (ha : p.velocity_angle = q.velocity_angle)
    (hp : p.velocity_pattern = q.velocity_pattern) :
    seedVel p u = seedVel q u := by
  unfold seedVel
  rw [hm, ha, hp]

/-- C4: create_particles lays the grid out in row-major order, cell (col,row)
at linear index row*width+col, with centered position
((col/width - 0.5) * scale, (row/height - 0.5) * scale). -/
theorem create_particles_row_major (width height : ℕ) (scale : ℝ) (params : Params)
    (col row : ℕ) (hc : col < width) (hr : row < height) :
    ∃ hp : row * width + col < (create_particles width height scale params).length,
      ((create_particles width height scale params).get ⟨row * width + col, hp⟩).u =
        Vec2.mk (((col : ℝ) / width - 0.5) * scale) (((row : ℝ) / height - 0.5) * scale) := by
  have hlt : row * width + col < width * height := by
    calc row * width + col < row * width + width := by omega
      _ = (row + 1) * width := by ring
      _ ≤ height * width := Nat.mul_le_mul_right _ (by omega)
      _ = width * height := Nat.mul_comm _ _
  refine ⟨by simpa [create_particles] using hlt, ?_⟩
  rw [create_particles_get]
  have hmod : (row * width + col) % width = col := by
    rw [Nat.mul_comm row width, Nat.mul_add_mod, Nat.mod_eq_of_lt hc]
  have hdiv : (row * width + col) / width = row := by
    rw [Nat.mul_comm row width, Nat.mul_add_div (by omega), Nat.div_eq_of_lt hc]
    omega
  simp only [seedParticle, seedPos, hmod, hdiv, Vec2.smul, Vec2.sub, Vec2.splat]
  rw [Vec2.ext_iff2]
  constructor <;> ring

/-- C4 witness: in a 2 by 2 grid at scale 1, cell (1,0) sits at index 1 with
position (0, -0.5). -/
theorem create_particles_row_major_witness :
    ∃ hp : 0 * 2 + 1 < (create_particles 2 2 1 (defaultParams 2 2)).length,
      ((create_particles 2 2 1 (defaultParams 2 2)).get ⟨0 * 2 + 1, hp⟩).u =
        Vec2.mk ((((1 : ℕ) : ℝ) / ((2 : ℕ) : ℝ) - 0.5) * 1)
          ((((0 : ℕ) : ℝ) / ((2 : ℕ) : ℝ) - 0.5) * 1) :=
  create_particles_row_major 2 2 1 (defaultParams 2 2) 1 0 (by decide) (by decide)

/-- C5: create_particles is pure and deterministic; beyond width, height and
scale it reads only the three velocity fields of the ParameterSet, so two
calls agreeing on those six values return identical particle arrays. -/
theorem create_particles_pure (width height : ℕ) (scale : ℝ) (p q : Params)
    (hm : p.velocity_magnitude = q.velocity_magnitude)
    (ha : p.velocity_angle = q.velocity_angle)
    (hp : p.velocity_pattern = q.velocity_pattern) :
    create_particles width height scale p = create_particles width height scale q := by
  unfold create_particles
  congr 1
  funext i
  simp only [seedParticle]
  rw [seedVel_congr p q _ hm ha hp]

/-- C5 witness: two parameter sets differing in every non-velocity field seed
the same particle array. -/
theorem create_particles_pure_witness :
    create_particles 2 2 1 (defaultParams 2 2) =
      create_particles 2 2 1
        { n := 9, r := 1.0, d := 0.1, mu := 0.9, c := 0.7, dt := 0.05,
          w := 7, h := 7,
          velocity_magnitude := 4.0, velocity_angle := Real.pi / 2,
          velocity_pattern := 1, _padding := 5.0 } :=
  create_particles_pure 2 2 1 _ _ rfl rfl rfl

/-- C7: for velocity_pattern = 3 (zero) and indeed every pattern value other
than 0, 1, 2, every produced particle has velocity (0,0), whatever the
magnitude and angle. -/
theorem zero_pattern_velocity (width height : ℕ) (scale : ℝ) (params : Params)
    (h0 : params.velocity_pattern ≠ 0) (h1 : params.velocity_pattern ≠ 1)
    (h2 : params.velocity_pattern ≠ 2) :
    ∀ part ∈ create_particles width height scale params, part.du = Vec2.ZERO := by
  intro part hpart
  obtain ⟨i, -, rfl⟩ := List.mem_map.mp hpart
  simp [seedParticle, seedVel, h0, h1, h2]

/-- C7 witness: with the default parameters switched to pattern 3, the first
particle of a 2 by 2 grid starts at rest. -/
theorem zero_pattern_velocity_witness :
    seedParticle 2 2 1 { defaultParams 2 2 with velocity_pattern := 3 } 0 ∈
      create_particles 2 2 1 { defaultParams 2 2 with velocity_pattern := 3 } ∧
    (seedParticle 2 2 1 { defaultParams 2 2 with velocity_pattern := 3 } 0).du =
      Vec2.ZERO := by
  have hmem : seedParticle 2 2 1 { defaultParams 2 2 with velocity_pattern := 3 } 0 ∈
      create_particles 2 2 1 { defaultParams 2 2 with velocity_pattern := 3 } :=
    List.mem_map.mpr ⟨0, List.mem_range.mpr (by norm_num), rfl⟩
  exact ⟨hmem, zero_pattern_velocity 2 2 1 _
    (by decide) (by decide) (by decide) _ hmem⟩

/-- C6: for the radial (0) and tangential (1) patterns, a particle whose
position lies within 0.001 of the origin receives the fallback velocity of
magnitude velocity_magnitude in the direction velocity_angle (radial) or
velocity_angle + pi/2 (tangential); the normalize of the near-zero vector is
never used for it. -/
theorem near_origin_fallback (width height : ℕ) (scale : ℝ) (params : Params)
    (i : ℕ) (hi : i < (create_particles width height scale params).length)
    (hnear : (((create_particles width height scale params).get ⟨i, hi⟩).u).length ≤ 0.001) :
    (params.velocity_pattern = 0 →
      ((create_particles width height scale params).get ⟨i, hi⟩).du =
        Vec2.smul params.velocity_magnitude (Vec2.from_angle params.velocity_angle)) ∧
    (params.velocity_pattern = 1 →
      ((create_particles width height scale params).get ⟨i, hi⟩).du =
        Vec2.smul params.velocity_magnitude
          (Vec2.from_angle (params.velocity_angle + Real.pi / 2))) := by
  rw [create_particles_get] at hnear ⊢
  simp only [seedParticle] at hnear ⊢
  have hcond : ¬ (seedPos width height scale i).length > 0.001 := not_lt.mpr hnear
  constructor <;> intro hpat <;> simp [seedVel, hpat, hcond]

/-- C6 witness: in a 2 by 2 grid the cell (1,1) particle sits exactly at the
origin, and under the default tangential pattern it gets the angle-plus-90
fallback velocity. -/
theorem near_origin_fallback_witness :
    ∃ hi : 3 < (create_particles 2 2 1 (defaultParams 2 2)).length,
      (((create_particles 2 2 1 (defaultParams 2 2)).get ⟨3, hi⟩).u).length ≤ 0.001 ∧
      ((defaultParams 2 2).velocity_pattern = 1 →
        ((create_particles 2 2 1 (defaultParams 2 2)).get ⟨3, hi⟩).du =
          Vec2.smul (defaultParams 2 2).velocity_magnitude
            (Vec2.from_angle ((defaultParams 2 2).velocity_angle + Real.pi / 2))) := by
  have hi : 3 < (create_particles 2 2 1 (defaultParams 2 2)).length := by
    simp [create_particles]
  have hnear : (((create_particles 2 2 1 (defaultParams 2 2)).get ⟨3, hi⟩).u).length
      ≤ 0.001 := by
    rw [create_particles_get]
    simp only [seedParticle, seedPos, Vec2.smul, Vec2.sub, Vec2.splat, Vec2.length]
    norm_num
  exact ⟨hi, hnear, (near_origin_fallback 2 2 1 (defaultParams 2 2) 3 hi hnear).2⟩

theorem corner_seed_u : seedPos 4 4 1 0 = Vec2.mk (-0.5) (-0.5) := by
  simp only [seedPos, Vec2.smul, Vec2.sub, Vec2.splat]
  rw [Vec2.ext_iff2]
  norm_num

theorem corner_seed_du :
    seedVel (defaultParams 4 4) (Vec2.mk (-0.5) (-0.5)) =
      Vec2.mk (2 * Real.sqrt 2) (2 * Real.sqrt 2) := by
  have hlen : (Vec2.mk (-0.5 : ℝ) (-0.5)).length > 0.001 := by
    unfold Vec2.length
    rw [gt_iff_lt, Real.lt_sqrt (by norm_num)]
    norm_num
  have hs : Real.sqrt ((-(-0.5 : ℝ)) ^ 2 + (-0.5 : ℝ) ^ 2) = (Real.sqrt 2)⁻¹ := by
    rw [show (-(-0.5 : ℝ)) ^ 2 + (-0.5 : ℝ) ^ 2 = 2⁻¹ by norm_num, Real.sqrt_inv]
  unfold seedVel
  rw [if_neg (by norm_num [defaultParams]), if_pos (by rfl), if_pos hlen]
  simp only [defaultParams, Vec2.from_angle, Real.cos_pi_div_two, Real.sin_pi_div_two,
    Vec2.normalize, Vec2.length, Vec2.rotate, Vec2.smul]
  rw [Vec2.ext_iff2]
  simp only [hs]
  constructor <;> (ring_nf; rw [inv_inv])

theorem corner_particle_value :
    seedParticle 4 4 1 (defaultParams 4 4) 0 =
      { u := Vec2.mk (-0.5) (-0.5),
        du := Vec2.mk (2 * Real.sqrt 2) (2 * Real.sqrt 2) } := by
  simp only [seedParticle]
  rw [corner_seed_u, corner_seed_du]

/-- C3 counterexample: in new(4,4,1.0) with the default parameters, the
particle at grid index (0,0) has position (-0.5,-0.5) — the code uses
col/width with no half-cell offset — so it is not at the claimed cell-center
position (-0.375,-0.375). -/
theorem corner_particle_not_at_claimed_position :
    ∃ hp : 0 < (create_particles 4 4 1 (defaultParams 4 4)).length,
      ((create_particles 4 4 1 (defaultParams 4 4)).get ⟨0, hp⟩).u ≠
        Vec2.mk (-0.375) (-0.375) := by
  refine ⟨by simp [create_particles], ?_⟩
  rw [create_particles_get, corner_particle_value]
  norm_num [Vec2.ext_iff2]

/-- C3 amended: in new(4,4,1.0) with the default parameters the particle at
grid index (0,0) has position (-0.5,-0.5) (cell corner, not cell center), and
its velocity is (2*sqrt 2, 2*sqrt 2): the direction perpendicular to that
position rotated by pi/2, with magnitude exactly 4. -/
theorem corner_particle_position_and_velocity :
    ∃ hp : 0 < (create_particles 4 4 1 (defaultParams 4 4)).length,
      (((create_particles 4 4 1 (defaultParams 4 4)).get ⟨0, hp⟩).u =
        Vec2.mk (-0.5) (-0.5)) ∧
      (((create_particles 4 4 1 (defaultParams 4 4)).get ⟨0, hp⟩).du =
        Vec2.mk (2 * Real.sqrt 2) (2 * Real.sqrt 2)) ∧
      ((((create_particles 4 4 1 (defaultParams 4 4)).get ⟨0, hp⟩).du).length = 4) := by
  refine ⟨by simp [create_particles], ?_, ?_, ?_⟩
  · rw [create_particles_get, corner_particle_value]
  · rw [create_particles_get, corner_particle_value]
  · rw [create_particles_get, corner_particle_value]
    have h8 : (2 * Real.sqrt 2) ^ 2 = 8 := by
      rw [mul_pow, Real.sq_sqrt (by norm_num : (0 : ℝ) ≤ 2)]
      norm_num
    show Vec2.length (Vec2.mk (2 * Real.sqrt 2) (2 * Real.sqrt 2)) = 4
    unfold Vec2.length
    rw [show (Vec2.mk (2 * Real.sqrt 2) (2 * Real.sqrt 2)).x = 2 * Real.sqrt 2 from rfl,
      show (Vec2.mk (2 * Real.sqrt 2) (2 * Real.sqrt 2)).y = 2 * Real.sqrt 2 from rfl,
      h8, show (8 : ℝ) + 8 = 4 ^ 2 by norm_num, Real.sqrt_sq (by norm_num)]

/-- RGBA color entry, one row of the colormap table. -/
def Rgba : Type := ℝ × ℝ × ℝ × ℝ

/-- Modelled from the spec: TWILIGHT_MAP, the colormap constant from the
resources module, which is not under src/.  Spec sections 3 and 6 describe it
as an immutable, fixed-length ordered sequence of RGBA quadruples embedded as
an implementation-defined constant table; its exact entries are irrelevant to
every claim here, only that it is one fixed constant. -/
def TWILIGHT_MAP : List Rgba := List.replicate 510 ((0 : ℝ), (0 : ℝ), (0 : ℝ), (1 : ℝ))

/-- A GPU buffer as the engine sees it: an allocation identity, fresh per
device.create_buffer_init call, plus its current contents. -/
structure Buffer (α : Type) where
  id : ℕ
  contents : α

/-- The engine's output storage texture: allocation identity plus texel
contents in row-major order. -/
structure Texture where
  id : ℕ
  pixels : List Rgba

/-- The compute bind group of src/sim.rs: its own identity and the resources
it references.  Binding 0 is the uniform params buffer, binding 1 the
particle storage buffer, binding 2 the storage texture, binding 3 the
colormap buffer.  The particle and colormap buffers live here, matching the
source where they are kept alive only through the bind group. -/
structure BindGroup where
  id : ℕ
  param_buffer_id : ℕ
  particle_buf : Buffer (List Particle)
  texture_id : ℕ
  colormap_buf : Buffer (List Rgba)

/-- GPUSimResources from src/sim.rs: the engine-owned resource bundle stored
in the callback-resources registry.  Pipelines and the render bind group
carry only their allocation identity. -/
structure GPUSimResources where
  vertex_buffer : Buffer (List (Vec2 × Vec2))
  param_buffer : Buffer Params
  compute_pipeline : ℕ
  bind_group : BindGroup
  render_pipeline : ℕ
  render_bg : ℕ
  _output_tex : Texture

/-- The wgpu render state as the engine uses it: the device's fresh-id
allocation counter and the typed callback-resources slot for
GPUSimResources. -/
structure RenderState where
  nextId : ℕ
  callback_resources : Option GPUSimResources

/-- GPUSim from src/sim.rs. -/
structure GPUSim where
  params : Params
  _scale : ℝ
  _width : ℕ
  _height : ℕ

/-- The fixed full-screen quad uploaded to the vertex buffer in GPUSim::new:
four vertices carrying position and UV. -/
def quadVertices : List (Vec2 × Vec2) :=
  [(⟨-1, -1⟩, ⟨0, 0⟩), (⟨1, -1⟩, ⟨1, 0⟩), (⟨-1, 1⟩, ⟨0, 1⟩), (⟨1, 1⟩, ⟨1, 1⟩)]

/-- GPUSim::new with its inline default-parameter literal abstracted into an
argument; new instantiates this at defaultParams.  The body follows new's
allocation order — param buffer (id st), particle buffer (st+1), colormap
buffer (st+2), bind group layout (st+3), shader module (st+4), pipeline
layout (st+5), compute pipeline (st+6), output texture (st+7), render bind
group layout (st+8), render pipeline layout (st+9), render pipeline (st+10),
sampler (st+11), render bind group (st+12), compute bind group (st+13),
vertex buffer (st+14) — and registers the resource bundle.  The abstracted
form is the spec's notion of fresh construction with a given ParameterSet. -/
def newWithParams (st : ℕ) (width height : ℕ) (scale : ℝ) (params : Params) :
    GPUSim × RenderState :=
  let particles := create_particles width height scale params
  let param_buffer : Buffer Params := ⟨st, params⟩
  let particle_buf : Buffer (List Particle) := ⟨st + 1, particles⟩
  let colormap_buf : Buffer (List Rgba) := ⟨st + 2, TWILIGHT_MAP⟩
  let compute_pipeline := st + 6
  let tex : Texture :=
    ⟨st + 7, List.replicate (width * height) ((0 : ℝ), (0 : ℝ), (0 : ℝ), (0 : ℝ))⟩
  let render_pipeline := st + 10
  let render_bg := st + 12
  let bind_group : BindGroup :=
    ⟨st + 13, param_buffer.id, particle_buf, tex.id, colormap_buf⟩
  let vertex_buffer : Buffer (List (Vec2 × Vec2)) := ⟨st + 14, quadVertices⟩
  (⟨params, scale, width, height⟩,
   ⟨st + 15,
    some ⟨vertex_buffer, param_buffer, compute_pipeline, bind_group,
          render_pipeline, render_bg, tex⟩⟩)

/-- GPUSim::new: constructs with the built-in default ParameterSet; the
caller supplies only the render state, width, height and scale. -/
def GPUSim.new (st : ℕ) (width height : ℕ) (scale : ℝ) : GPUSim × RenderState :=
  newWithParams st width height scale (defaultParams width height)

/-- GPUSim::restart: reseed via create_particles from the current params and
the construction-time width, height and scale; create a fresh particle buffer
(id k), a fresh colormap buffer (k+1), a fresh bind group layout (k+2, not
stored) and a fresh bind group (k+3) referencing the existing param buffer
and output texture together with the two new buffers; store the new bind
group and leave every other resource untouched.  When the resources slot is
empty nothing happens. -/
def GPUSim.restart (g : GPUSim) (rs : RenderState) : RenderState :=
  let particles := create_particles g._width g._height g._scale g.params
  match rs.callback_resources with
  | none => rs
  | some resources =>
      let k := rs.nextId
      let new_particle_buf : Buffer (List Particle) := ⟨k, particles⟩
      let colormap_buf : Buffer (List Rgba) := ⟨k + 1, TWILIGHT_MAP⟩
      let new_bind_group : BindGroup :=
        ⟨k + 3, resources.param_buffer.id, new_particle_buf,
         resources._output_tex.id, colormap_buf⟩
      ⟨k + 4, some { resources with bind_group := new_bind_group }⟩

/-- Modelled from the spec: the attractor ring of section 4.3 — n attractors
placed evenly on a ring of radius r around the center. -/
def attractor (p : Params) (k : ℕ) : Vec2 :=
  ⟨p.r * Real.cos (2 * Real.pi * k / p.n), p.r * Real.sin (2 * Real.pi * k / p.n)⟩

/-- Modelled from the spec: shader.wgsl is not under src/, so the per-particle
force law is taken from spec section 4.3 — a restoring spring toward the
center scaled by c, damping scaled by mu, and a sum over the n ring
attractors of attraction softened by d. -/
def kernelForce (p : Params) (part : Particle) : Vec2 :=
  let attraction := (List.range p.n).foldr
    (fun k acc =>
      let delta := Vec2.sub (attractor p k) part.u
      let soft := delta.x ^ 2 + delta.y ^ 2 + p.d ^ 2
      ⟨acc.x + delta.x / soft, acc.y + delta.y / soft⟩)
    Vec2.ZERO
  ⟨attraction.x - p.c * part.u.x - p.mu * part.du.x,
   attraction.y - p.c * part.u.y - p.mu * part.du.y⟩

/-- Modelled from the spec: one explicit-Euler integration step of section
4.3, the compute kernel's per-particle update under time step dt. -/
def kernelStep (p : Params) (part : Particle) : Particle :=
  { u := ⟨part.u.x + p.dt * part.du.x, part.u.y + p.dt * part.du.y⟩,
    du := ⟨part.du.x + p.dt * (kernelForce p part).x,
           part.du.y + p.dt * (kernelForce p part).y⟩ }

/-- Modelled from the spec: the colormap-sampled pixel the kernel writes for
a particle, keyed by a scalar observable of the updated particle (its
distance from the center), section 4.3. -/
def pixelOf (cmap : List Rgba) (part : Particle) : Rgba :=
  cmap.getD (Nat.floor (part.u.length)) ((0 : ℝ), (0 : ℝ), (0 : ℝ), (0 : ℝ))

/-- CallbackTrait::prepare for GPUSim: upload self.params to the uniform
buffer verbatim, then record the compute pass, whose params.w x params.h
invocations each replace their particle by its kernelStep update and
overwrite their texel with its colormap-sampled pixel.  Returns none when the
resources slot is missing, where the source unwraps. -/
def GPUSim.prepare (g : GPUSim) (rs : RenderState) : Option RenderState :=
  match rs.callback_resources with
  | none => none
  | some res =>
      let ps := res.bind_group.particle_buf.contents
      let ps2 := ps.map (kernelStep g.params)
      let pixels := ps2.map (pixelOf res.bind_group.colormap_buf.contents)
      some ⟨rs.nextId,
        some { res with
          param_buffer := ⟨res.param_buffer.id, g.params⟩,
          bind_group := { res.bind_group with
            particle_buf := ⟨res.bind_group.particle_buf.id, ps2⟩ },
          _output_tex := ⟨res._output_tex.id, pixels⟩ }⟩

/-- CallbackTrait::paint for GPUSim: draw the full-screen quad sampling the
output texture; the rendered image, byte for byte, is the texture contents.
Returns none when the resources slot is missing, where the source unwraps. -/
def GPUSim.paint (g : GPUSim) (rs : RenderState) : Option (List Rgba) :=
  match rs.callback_resources with
  | none => none
  | some res => some res._output_tex.pixels

/-- C10: new always initializes the engine's ParameterSet to the fixed
built-in defaults — n=5, r=3.0, d=0.4, mu=0.2, c=0.2, dt=0.006,
velocity_magnitude=4.0, velocity_angle=pi/2, velocity_pattern=1 (tangential)
— with w and h the given width and height; the caller passes no parameter
values, and the initial particle field is seeded from exactly these
defaults. -/
theorem new_uses_default_params (st width height : ℕ) (scale : ℝ) :
    (GPUSim.new st width height scale).1.params =
      { n := 5, r := 3.0, d := 0.4, mu := 0.2, c := 0.2, dt := 0.006,
        w := width, h := height, velocity_magnitude := 4.0,
        velocity_angle := Real.pi / 2, velocity_pattern := 1, _padding := 0.0 } ∧
    ∃ res, (GPUSim.new st width height scale).2.callback_resources = some res ∧
      res.bind_group.particle_buf.contents =
        create_particles width height scale (defaultParams width height) :=
  ⟨rfl, _, rfl, rfl⟩

/-- C8: prepare uploads the entire current ParameterSet verbatim to the
uniform buffer on every call and for every parameter value — nothing is
validated, clamped or modified, so out-of-documented-range values such as a
negative dt or a zero n pass through unchanged; the buffer's identity is
untouched. -/
theorem prepare_uploads_params_verbatim (g : GPUSim) (rs : RenderState)
    (res : GPUSimResources) (h : rs.callback_resources = some res) :
    ∃ rs' res', g.prepare rs = some rs' ∧ rs'.callback_resources = some res' ∧
      res'.param_buffer.contents = g.params ∧
      res'.param_buffer.id = res.param_buffer.id := by
  cases rs with
  | mk nid cr =>
    cases h
    exact ⟨_, _, rfl, rfl, rfl, rfl⟩

/-- C8 witness: a ParameterSet with dt = -1 and n = 0 is uploaded to the
uniform buffer unchanged. -/
theorem prepare_uploads_params_verbatim_witness :
    ∃ res, (GPUSim.new 0 4 4 1).2.callback_resources = some res ∧
      ∃ rs' res',
        GPUSim.prepare ⟨{ defaultParams 4 4 with dt := -1, n := 0 }, 1, 4, 4⟩
          (GPUSim.new 0 4 4 1).2 = some rs' ∧
        rs'.callback_resources = some res' ∧
        res'.param_buffer.contents = { defaultParams 4 4 with dt := -1, n := 0 } ∧
        res'.param_buffer.id = res.param_buffer.id :=
  ⟨_, rfl, prepare_uploads_params_verbatim _ _ _ rfl⟩

theorem kernelStep_dt_zero (p : Params) (hdt : p.dt = 0) (part : Particle) :
    kernelStep p part = part := by
  cases part with
  | mk u du =>
    cases u
    cases du
    simp [kernelStep, hdt]

/-- C9: with dt = 0, prepare is idempotent on the observable state: each call
leaves the particle buffer contents unchanged, and the rendered output of a
second prepare equals that of the first — pause is the dt = 0 parameter
value, not a separate code path. -/
theorem prepare_dt_zero_idempotent (g : GPUSim) (rs : RenderState)
    (res : GPUSimResources) (h : rs.callback_resources = some res)
    (hdt : g.params.dt = 0) :
    ∃ rs1 rs2 res1 res2,
      g.prepare rs = some rs1 ∧ g.prepare rs1 = some rs2 ∧
      rs1.callback_resources = some res1 ∧ rs2.callback_resources = some res2 ∧
      res1.bind_group.particle_buf.contents = res.bind_group.particle_buf.contents ∧
      res2.bind_group.particle_buf.contents = res1.bind_group.particle_buf.contents ∧
      g.paint rs2 = g.paint rs1 := by
  have hstep : ∀ ps : List Particle, ps.map (kernelStep g.params) = ps := by
    intro ps
    have hid : kernelStep g.params = id := funext (kernelStep_dt_zero g.params hdt)
    rw [hid, List.map_id]
  cases rs with
  | mk nid cr =>
    cases h
    refine ⟨_, _, _, _, rfl, rfl, rfl, rfl, hstep _, hstep _, ?_⟩
    show some _ = some _
    simp only [hstep]

/-- C9 witness: the construction-time engine state with dt set to 0 admits
two consecutive prepares that keep the particle buffer and the rendered
image fixed. -/
theorem prepare_dt_zero_idempotent_witness :
    ∃ rs1 rs2 res1 res2,
      GPUSim.prepare ⟨{ defaultParams 2 2 with dt := 0 }, 1, 2, 2⟩
        (GPUSim.new 0 2 2 1).2 = some rs1 ∧
      GPUSim.prepare ⟨{ defaultParams 2 2 with dt := 0 }, 1, 2, 2⟩ rs1 = some rs2 ∧
      rs1.callback_resources = some res1 ∧ rs2.callback_resources = some res2 ∧
      (∃ res, (GPUSim.new 0 2 2 1).2.callback_resources = some res ∧
        res1.bind_group.particle_buf.contents =
          res.bind_group.particle_buf.contents) ∧
      res2.bind_group.particle_buf.contents = res1.bind_group.particle_buf.contents ∧
      GPUSim.paint ⟨{ defaultParams 2 2 with dt := 0 }, 1, 2, 2⟩ rs2 =
        GPUSim.paint ⟨{ defaultParams 2 2 with dt := 0 }, 1, 2, 2⟩ rs1 := by
  obtain ⟨rs1, rs2, res1, res2, h1, h2, h3, h4, h5, h6, h7⟩ :=
    prepare_dt_zero_idempotent ⟨{ defaultParams 2 2 with dt := 0 }, 1, 2, 2⟩
      (GPUSim.new 0 2 2 1).2 _ rfl rfl
  exact ⟨rs1, rs2, res1, res2, h1, h2, h3, h4, ⟨_, rfl, h5⟩, h6, h7⟩

/-- C1: restart reseeds the particle field via create_particles from the
current ParameterSet held by the engine, and the restarted engine matches a
fresh construction with that same ParameterSet (pipelines/layouts excepted)
on every observable: particle buffer contents and colormap contents
coincide, and restart followed immediately by prepare (dt=0) + paint renders
byte-for-byte the same image as the fresh engine's prepare + paint. -/
theorem restart_matches_fresh_construction (g : GPUSim) (rs : RenderState)
    (res : GPUSimResources) (k : ℕ)
    (h : rs.callback_resources = some res) (hdt : g.params.dt = 0) :
    ∃ res', (g.restart rs).callback_resources = some res' ∧
      res'.bind_group.particle_buf.contents =
        create_particles g._width g._height g._scale g.params ∧
      ∃ fres,
        (newWithParams k g._width g._height g._scale g.params).2.callback_resources
          = some fres ∧
        res'.bind_group.particle_buf.contents =
          fres.bind_group.particle_buf.contents ∧
        res'.bind_group.colormap_buf.contents =
          fres.bind_group.colormap_buf.contents ∧
        (g.prepare (g.restart rs)).bind g.paint =
          ((newWithParams k g._width g._height g._scale g.params).1.prepare
            (newWithParams k g._width g._height g._scale g.params).2).bind
            (newWithParams k g._width g._height g._scale g.params).1.paint := by
  cases rs with
  | mk nid cr =>
    cases h
    exact ⟨_, rfl, rfl, _, rfl, rfl, rfl, rfl⟩

/-- C1 witness: at the construction-time state with dt set to 0, restart plus
prepare plus paint reproduces the image of a fresh construction with the
same ParameterSet. -/
theorem restart_matches_fresh_construction_witness :
    ∃ res', (GPUSim.restart ⟨{ defaultParams 2 2 with dt := 0 }, 1, 2, 2⟩
        (GPUSim.new 0 2 2 1).2).callback_resources = some res' ∧
      res'.bind_group.particle_buf.contents =
        create_particles 2 2 1 { defaultParams 2 2 with dt := 0 } ∧
      ∃ fres,
        (newWithParams 50 2 2 1
          { defaultParams 2 2 with dt := 0 }).2.callback_resources = some fres ∧
        res'.bind_group.particle_buf.contents =
          fres.bind_group.particle_buf.contents ∧
        res'.bind_group.colormap_buf.contents =
          fres.bind_group.colormap_buf.contents ∧
        (GPUSim.prepare ⟨{ defaultParams 2 2 with dt := 0 }, 1, 2, 2⟩
            (GPUSim.restart ⟨{ defaultParams 2 2 with dt := 0 }, 1, 2, 2⟩
              (GPUSim.new 0 2 2 1).2)).bind
          (GPUSim.paint ⟨{ defaultParams 2 2 with dt := 0 }, 1, 2, 2⟩) =
        ((newWithParams 50 2 2 1 { defaultParams 2 2 with dt := 0 }).1.prepare
            (newWithParams 50 2 2 1 { defaultParams 2 2 with dt := 0 }).2).bind
          (newWithParams 50 2 2 1 { defaultParams 2 2 with dt := 0 }).1.paint :=
  restart_matches_fresh_construction
    ⟨{ defaultParams 2 2 with dt := 0 }, 1, 2, 2⟩ (GPUSim.new 0 2 2 1).2 _ 50 rfl rfl

/-- C2 counterexample: restarting the engine constructed by new(1,1,1.0)
creates a fresh colormap buffer — the restarted bind group references a
colormap buffer with a new allocation identity (16, not the original 2),
though with identical contents — so a GPU resource other than the particle
buffer and the bind group is recreated on restart, contrary to the claim
that the colormap buffer is reused. -/
theorem restart_recreates_colormap_buffer :
    ∃ res0 res1,
      (GPUSim.new 0 1 1 1).2.callback_resources = some res0 ∧
      (GPUSim.restart (GPUSim.new 0 1 1 1).1
        (GPUSim.new 0 1 1 1).2).callback_resources = some res1 ∧
      res1.bind_group.colormap_buf.id ≠ res0.bind_group.colormap_buf.id ∧
      res1.bind_group.colormap_buf.contents = res0.bind_group.colormap_buf.contents := by
  refine ⟨_, _, rfl, rfl, ?_, rfl⟩
  decide

/-- C2 amended: restart reuses the uniform buffer (same identity and
contents), the output image, the pipelines, the render bind group and the
vertex buffer untouched, and recreates the particle buffer and the bind
group; but it additionally creates a fresh colormap buffer — its contents
identical to the constant table — and binds it in place of the old one.  The
new bind group references the reused uniform buffer and texture. -/
theorem restart_resource_reuse (g : GPUSim) (rs : RenderState)
    (res : GPUSimResources) (h : rs.callback_resources = some res)
    (hid1 : res.bind_group.particle_buf.id < rs.nextId)
    (hid2 : res.bind_group.colormap_buf.id < rs.nextId) :
    ∃ res', (g.restart rs).callback_resources = some res' ∧
      res'.param_buffer = res.param_buffer ∧
      res'._output_tex = res._output_tex ∧
      res'.vertex_buffer = res.vertex_buffer ∧
      res'.compute_pipeline = res.compute_pipeline ∧
      res'.render_pipeline = res.render_pipeline ∧
      res'.render_bg = res.render_bg ∧
      res'.bind_group.param_buffer_id = res.param_buffer.id ∧
      res'.bind_group.texture_id = res._output_tex.id ∧
      res'.bind_group.particle_buf.id ≠ res.bind_group.particle_buf.id ∧
      res'.bind_group.particle_buf.contents =
        create_particles g._width g._height g._scale g.params ∧
      res'.bind_group.colormap_buf.id ≠ res.bind_group.colormap_buf.id ∧
      res'.bind_group.colormap_buf.contents = TWILIGHT_MAP := by
  cases rs with
  | mk nid cr =>
    cases h
    refine ⟨_, rfl, rfl, rfl, rfl, rfl, rfl, rfl, rfl, rfl, ?_, rfl, ?_, rfl⟩ <;>
      · dsimp only at hid1 hid2 ⊢
        omega

/-- C2 amended witness: at the construction-time state of new(1,1,1.0) the
reuse/recreate split of restart is exactly as stated. -/
theorem restart_resource_reuse_witness :
    ∃ res, (GPUSim.new 0 1 1 1).2.callback_resources = some res ∧
      ∃ res', (GPUSim.restart (GPUSim.new 0 1 1 1).1
          (GPUSim.new 0 1 1 1).2).callback_resources = some res' ∧
        res'.param_buffer = res.param_buffer ∧
        res'._output_tex = res._output_tex ∧
        res'.vertex_buffer = res.vertex_buffer ∧
        res'.compute_pipeline = res.compute_pipeline ∧
        res'.render_pipeline = res.render_pipeline ∧
        res'.render_bg = res.render_bg ∧
        res'.bind_group.param_buffer_id = res.param_buffer.id ∧
        res'.bind_group.texture_id = res._output_tex.id ∧
        res'.bind_group.particle_buf.id ≠ res.bind_group.particle_buf.id ∧
        res'.bind_group.particle_buf.contents =
          create_particles (GPUSim.new 0 1 1 1).1._width
            (GPUSim.new 0 1 1 1).1._height (GPUSim.new 0 1 1 1).1._scale
            (GPUSim.new 0 1 1 1).1.params ∧
        res'.bind_group.colormap_buf.id ≠ res.bind_group.colormap_buf.id ∧
        res'.bind_group.colormap_buf.contents = TWILIGHT_MAP :=
  ⟨_, rfl, restart_resource_reuse (GPUSim.new 0 1 1 1).1 (GPUSim.new 0 1 1 1).2 _
    rfl (by decide) (by decide)⟩

end

end MagPen
